import Mathlib

/-!
Shallow embedding of the notify package (src/notify.go), a WeChat Work
message-sending client.  The embedding models:

* the client state (`Notify`, notify.go:220) with its token fields;
* the token cache subsystem: `loadTokenCache` (notify.go:373),
  `saveTokenCache` (notify.go:399) over an explicit file-system map,
  with the temp-file / fsync / rename sequence made into an explicit
  operation list so that interrupted saves can be examined;
* `GetToken` (notify.go:345), with the credential-exchange HTTP call
  modelled by an explicit transport outcome (network error, decode
  error, or a decoded `GetTokenResult`);
* the dispatcher: `Send` (notify.go:249), `setOptions` (notify.go:278),
  `sendMessage` (notify.go:453) and `sendInternal` (notify.go:475),
  with both send transport outcomes supplied as explicit inputs.

Go maps are modelled as association lists whose keys never collide
(all keys inserted by the code are distinct string constants), and the
`time.Now().Unix()` calls inside one operation are modelled by a single
`now : Int` parameter.
-/

namespace notify

/-- Receiver spec (Go struct `MessageReceiver`, notify.go:40).  A Go
`len(s) == 0` test is the `s = ""` test on the embedded string. -/
structure MessageReceiver where
  toUser : String
  toParty : String
  toTag : String
deriving DecidableEq

/-- Options (Go struct `MessageOptions`, notify.go:47). -/
structure MessageOptions where
  safe : Bool
  enableIDTrans : Bool
  enableDuplicateCheck : Bool
  duplicateCheckInterval : Int
deriving DecidableEq

/-- Decoded send-endpoint response (Go struct `MessageResult`, notify.go:57). -/
structure MessageResult where
  errcode : Int
  errmsg : String
  invaliduser : String
  invalidparty : String
  invalidtag : String
deriving DecidableEq

/-- Decoded credential-exchange response (Go struct `GetTokenResult`,
notify.go:231). -/
structure GetTokenResult where
  errcode : Int
  errmsg : String
  token : String
  expiresIn : Int
deriving DecidableEq

/-- Text message payload (notify.go:70). -/
structure Text where
  content : String
deriving DecidableEq

/-- Image message payload (notify.go:79). -/
structure Image where
  mediaID : String
deriving DecidableEq

/-- Voice message payload (notify.go:88). -/
structure Voice where
  mediaID : String
deriving DecidableEq

/-- Video message payload (notify.go:97). -/
structure Video where
  mediaID : String
  title : String
  description : String
deriving DecidableEq

/-- File message payload (notify.go:108). -/
structure File where
  mediaID : String
deriving DecidableEq

/-- Text-card message payload (notify.go:117). -/
structure TextCard where
  title : String
  description : String
  url : String
  btnTxt : String
deriving DecidableEq

/-- News article (notify.go:138). -/
structure NewsArticle where
  title : String
  description : String
  url : String
  picurl : String
deriving DecidableEq

/-- News message payload (notify.go:129). -/
structure News where
  articles : List NewsArticle
deriving DecidableEq

/-- MpNews article (notify.go:156). -/
structure MpNewsArticle where
  title : String
  thumbMediaID : String
  author : String
  contentSourceURL : String
  content : String
  digest : String
deriving DecidableEq

/-- MpNews message payload (notify.go:147). -/
structure MpNews where
  articles : List MpNewsArticle
deriving DecidableEq

/-- Markdown message payload (notify.go:166). -/
structure Markdown where
  content : String
deriving DecidableEq

/-- Mini-program content item (notify.go:192). -/
structure MiniProgramContentItem where
  key : String
  value : String
deriving DecidableEq

/-- Mini-program notice payload (notify.go:178). -/
structure MiniProgram where
  appID : String
  page : String
  title : String
  description : String
  emphasisFirstItem : Bool
  contentItems : List MiniProgramContentItem
deriving DecidableEq

/-- Task-card button (notify.go:211). -/
structure TaskCardButton where
  key : String
  name : String
  replaceName : String
  color : String
  isBold : Bool
deriving DecidableEq

/-- Task-card message payload (notify.go:198). -/
structure TaskCard where
  title : String
  description : String
  url : String
  taskID : String
  buttons : List TaskCardButton
deriving DecidableEq

/-- A value passed as the `message interface\x7b\x7d` argument of `Send`
(notify.go:249).  The eleven known constructors are exactly the Go types
implementing the `MessageKey` interface (notify.go:65); `unrecognized`
stands for any other Go value (carrying its Go type name), for which the
type assertion `message.(MessageKey)` fails. -/
inductive Message where
  | text (v : Text)
  | image (v : Image)
  | voice (v : Voice)
  | video (v : Video)
  | file (v : File)
  | textCard (v : TextCard)
  | news (v : News)
  | mpnews (v : MpNews)
  | markdown (v : Markdown)
  | miniProgram (v : MiniProgram)
  | taskCard (v : TaskCard)
  | unrecognized (goType : String)
deriving DecidableEq

/-- The `key()` method of the `MessageKey` interface (notify.go:65 and the
eleven `key` implementations); `none` when the value does not implement
`MessageKey`. -/
def messageKey : Message → Option String
  | Message.text _ => some "text"
  | Message.image _ => some "image"
  | Message.voice _ => some "voice"
  | Message.video _ => some "video"
  | Message.file _ => some "file"
  | Message.textCard _ => some "textcard"
  | Message.news _ => some "news"
  | Message.mpnews _ => some "mpnews"
  | Message.markdown _ => some "markdown"
  | Message.miniProgram _ => some "miniprogram_notice"
  | Message.taskCard _ => some "taskcard"
  | Message.unrecognized _ => none

/-- JSON value stored in the `msgBody map[string]interface\x7b\x7d`
(notify.go:255). -/
inductive Val where
  | str (s : String)
  | num (i : Int)
  | payload (m : Message)
deriving DecidableEq

/-- The request envelope: the `msgBody` map, as an association list.  All
keys the Go code inserts are distinct string constants, so insertion
order and lookups agree with Go map semantics. -/
abbrev Envelope := List (String × Val)

/-- The envelope contains a field with the given key. -/
abbrev hasKey (env : Envelope) (k : String) : Prop := k ∈ env.map Prod.fst

/-- Client state (Go struct `Notify`, notify.go:220). -/
structure Notify where
  corpID : String
  agentID : Int
  appSecret : String
  tokenPersist : Bool
  token : String
  tokenExpiresAt : Int
  cacheFilePath : String
deriving DecidableEq

/-- The exported fields of `Notify` that `json.Marshal` serializes in
`saveTokenCache` (notify.go:406) and that `json.Unmarshal` recovers in
`loadTokenCache` (notify.go:385).  The unexported credential fields are
not marshaled by Go. -/
structure CacheRecord where
  tokenPersist : Bool
  token : String
  tokenExpiresAt : Int
  cacheFilePath : String
deriving DecidableEq

/-- Serialization of a client state to its cache record
(`json.Marshal(n)`, notify.go:406). -/
def cacheRecordOf (n : Notify) : CacheRecord :=
  { tokenPersist := n.tokenPersist
    token := n.token
    tokenExpiresAt := n.tokenExpiresAt
    cacheFilePath := n.cacheFilePath }

/-- Content of a file in the modelled file system: a freshly created empty
file (`os.Create`, notify.go:421, before any write), a complete
serialized cache record, or arbitrary other content that does not
deserialize to a cache record. -/
inductive FileData where
  | empty
  | record (c : CacheRecord)
  | other (s : String)
deriving DecidableEq

/-- The file system: path to content, `none` when the path is absent. -/
abbrev FS := String → Option FileData

/-- File-system operations performed by `saveTokenCache`
(notify.go:421-446): create the temp file, write the serialized record,
fsync, close, and the final atomic rename. -/
inductive FsOp where
  | create (path : String)
  | write (path : String) (c : CacheRecord)
  | sync (path : String)
  | close (path : String)
  | rename (src : String) (dst : String)
deriving DecidableEq

/-- Effect of one file-system operation. -/
def applyOp (fs : FS) : FsOp → FS
  | FsOp.create p => fun q => if q = p then some FileData.empty else fs q
  | FsOp.write p c => fun q => if q = p then some (FileData.record c) else fs q
  | FsOp.sync _ => fs
  | FsOp.close _ => fs
  | FsOp.rename src dst => fun q =>
      if q = dst then fs src else if q = src then none else fs q

/-- Effect of a sequence of file-system operations. -/
def applyOps (fs : FS) (ops : List FsOp) : FS :=
  ops.foldl applyOp fs

/-- Delete a file (`os.Remove`, used on the failure paths of
`saveTokenCache`, notify.go:430/436/441). -/
def removeFile (p : String) (fs : FS) : FS :=
  fun q => if q = p then none else fs q

/-- The happy-path operation sequence of `saveTokenCache`
(notify.go:420-446): temp path is the cache path plus ".tmp". -/
def saveOps (n : Notify) : List FsOp :=
  [FsOp.create (n.cacheFilePath ++ ".tmp"),
   FsOp.write (n.cacheFilePath ++ ".tmp") (cacheRecordOf n),
   FsOp.sync (n.cacheFilePath ++ ".tmp"),
   FsOp.close (n.cacheFilePath ++ ".tmp"),
   FsOp.rename (n.cacheFilePath ++ ".tmp") n.cacheFilePath]

/-- The I/O failure sites of `saveTokenCache`: `os.Create` (notify.go:421),
`f.Write` (notify.go:427), `f.Sync` (notify.go:434), `f.Close`
(notify.go:440), `os.Rename` (notify.go:446). -/
inductive SaveFail where
  | createErr
  | writeErr
  | syncErr
  | closeErr
  | renameErr
deriving DecidableEq

/-- `saveTokenCache` (notify.go:399).  `ioErr` selects which I/O step, if
any, fails; the Go error paths after a failed write/sync/close remove the
temp file (notify.go:430/436/441).  `json.Marshal` of a `Notify` value
cannot fail and `os.MkdirAll` does not touch the cache file, so neither
is modelled as a failure site affecting file contents. -/
def saveTokenCache (n : Notify) (fs : FS) (ioErr : Option SaveFail) :
    FS × Except String Unit :=
  if n.tokenPersist = false then
    (fs, Except.error "token persist not enabled")
  else
    match ioErr with
    | none => (applyOps fs (saveOps n), Except.ok ())
    | some SaveFail.createErr =>
        (fs, Except.error "create temp file failed")
    | some SaveFail.writeErr =>
        (removeFile (n.cacheFilePath ++ ".tmp") (applyOps fs ((saveOps n).take 1)),
         Except.error "write to temp file failed")
    | some SaveFail.syncErr =>
        (removeFile (n.cacheFilePath ++ ".tmp") (applyOps fs ((saveOps n).take 2)),
         Except.error "sync temp file failed")
    | some SaveFail.closeErr =>
        (removeFile (n.cacheFilePath ++ ".tmp") (applyOps fs ((saveOps n).take 3)),
         Except.error "close temp file failed")
    | some SaveFail.renameErr =>
        (applyOps fs ((saveOps n).take 4),
         Except.error "rename temp file failed")

/-- `loadTokenCache` (notify.go:373).  Reads the configured cache file,
deserializes it, rejects it when `now > cache.TokenExpiresAt`
(notify.go:390), and otherwise adopts the cached token and expiry. -/
def loadTokenCache (n : Notify) (fs : FS) (now : Int) :
    Notify × Except String Unit :=
  if n.tokenPersist = false then
    (n, Except.error "token persist not enabled")
  else
    match fs n.cacheFilePath with
    | none => (n, Except.error "read cache file error")
    | some FileData.empty => (n, Except.error "unmarshal cache data error")
    | some (FileData.other _) => (n, Except.error "unmarshal cache data error")
    | some (FileData.record c) =>
        if now > c.tokenExpiresAt then
          (n, Except.error "token expired")
        else
          ({ n with token := c.token, tokenExpiresAt := c.tokenExpiresAt },
           Except.ok ())

/-- `New` (notify.go:239): constructs the client with `TokenPersist`
defaulting to `false` and `CacheFilePath` defaulting to ".notify", then
calls `loadTokenCache`, discarding its error. -/
def New (corpID : String) (agentID : Int) (appSecret : String)
    (fs : FS) (now : Int) : Notify :=
  let n : Notify :=
    { corpID := corpID, agentID := agentID, appSecret := appSecret
      tokenPersist := false, token := "", tokenExpiresAt := 0
      cacheFilePath := ".notify" }
  (loadTokenCache n fs now).1

/-- Transport outcome of the credential-exchange HTTP call inside
`GetToken`: the `client.Get` fails (notify.go:352), the JSON decode fails
(notify.go:358), or a `GetTokenResult` is decoded. -/
inductive RefreshOutcome where
  | netErr (m : String)
  | decodeErr (m : String)
  | ok (r : GetTokenResult)
deriving DecidableEq

/-- Output of `GetToken`: the client state after the call, the file
system after the call, the Go return value `(token, expiresAt, err)` as
an `Except`, and the number of credential-exchange HTTP requests issued
(0 or 1). -/
structure GetTokenOut where
  state : Notify
  fs : FS
  result : Except String (String × Int)
  refreshNetCalls : Nat

/-- `GetToken` (notify.go:345).  When the in-memory token is non-empty
and `now < TokenExpiresAt` it returns the cached pair with no network
call; otherwise it performs the refresh, propagating transport and
decode errors, failing on a non-zero remote error code, and on success
storing the token with `TokenExpiresAt = now + ExpiresIn` and attempting
to persist (the persistence error is discarded, notify.go:368). -/
def GetToken (n : Notify) (fs : FS) (now : Int) (net : RefreshOutcome)
    (ioErr : Option SaveFail) : GetTokenOut :=
  if n.token ≠ "" ∧ now < n.tokenExpiresAt then
    { state := n, fs := fs
      result := Except.ok (n.token, n.tokenExpiresAt), refreshNetCalls := 0 }
  else
    match net with
    | RefreshOutcome.netErr m =>
        { state := n, fs := fs
          result := Except.error ("token get request error: " ++ m)
          refreshNetCalls := 1 }
    | RefreshOutcome.decodeErr m =>
        { state := n, fs := fs
          result := Except.error ("token result decode error: " ++ m)
          refreshNetCalls := 1 }
    | RefreshOutcome.ok r =>
        if r.errcode ≠ 0 then
          { state := n, fs := fs
            result := Except.error ("token get error: " ++ r.errmsg)
            refreshNetCalls := 1 }
        else
          let n2 : Notify :=
            { n with token := r.token, tokenExpiresAt := now + r.expiresIn }
          { state := n2, fs := (saveTokenCache n2 fs ioErr).1
            result := Except.ok (r.token, now + r.expiresIn)
            refreshNetCalls := 1 }

/-- Transport outcome of one send-endpoint HTTP call inside
`sendMessage`: the `client.Post` fails (notify.go:462), the JSON decode
fails (notify.go:468), or a `MessageResult` is decoded. -/
inductive SendOutcome where
  | netErr (m : String)
  | decodeErr (m : String)
  | ok (r : MessageResult)
deriving DecidableEq

/-- The zero value of `MessageResult`, returned by Go alongside an
error. -/
def zeroMessageResult : MessageResult :=
  { errcode := 0, errmsg := "", invaliduser := "", invalidparty := ""
    invalidtag := "" }

/-- `sendMessage` (notify.go:453) as the Go pair `(result, err)`.  The
JSON encoding of the envelope cannot fail for the values the package
builds, so the encode-error path is not reachable. -/
def sendMessage : SendOutcome → MessageResult × Option String
  | SendOutcome.netErr m =>
      (zeroMessageResult, some ("send message request error: " ++ m))
  | SendOutcome.decodeErr m =>
      (zeroMessageResult, some ("send message result decode error: " ++ m))
  | SendOutcome.ok r => (r, none)

/-- The external world consumed by one `sendInternal` call: the clock,
the transport outcomes of the (at most) two credential-exchange calls
and the (at most) two send calls, and the persistence I/O outcome for
each potential save. -/
structure SendWorld where
  now : Int
  refresh1 : RefreshOutcome
  ioErr1 : Option SaveFail
  send1 : SendOutcome
  refresh2 : RefreshOutcome
  ioErr2 : Option SaveFail
  send2 : SendOutcome

/-- Output of `sendInternal`: final state, final file system, the Go
return pair `(result, err)`, and call counters. -/
structure SendOut where
  state : Notify
  fs : FS
  result : MessageResult
  err : Option String
  refreshNetCalls : Nat
  sendCalls : Nat

/-- The observable part of a `sendInternal` output: everything except
the file system. -/
def SendOut.obs (o : SendOut) :
    Notify × MessageResult × Option String × Nat × Nat :=
  (o.state, o.result, o.err, o.refreshNetCalls, o.sendCalls)

/-- `sendInternal` (notify.go:475).  Faithful to the Go scoping: inside
the retry branch, `token, _, err := n.GetToken()` declares a NEW `err`
shadowing the outer one (notify.go:488), and `result, err =
n.sendMessage(msgBody)` (notify.go:491) assigns that shadowed `err`; the
function returns the OUTER `err`, which is `nil` whenever the retry
branch was entered.  The retry condition is a transport-level success
with remote code 42001 or 40014 (notify.go:486). -/
def sendInternal (n : Notify) (fs : FS) (w : SendWorld) : SendOut :=
  let g1 := GetToken n fs w.now w.refresh1 w.ioErr1
  match g1.result with
  | Except.error e =>
      { state := g1.state, fs := g1.fs, result := zeroMessageResult
        err := some e, refreshNetCalls := g1.refreshNetCalls, sendCalls := 0 }
  | Except.ok _ =>
      let s1 := sendMessage w.send1
      if s1.2 = none ∧ (s1.1.errcode = 42001 ∨ s1.1.errcode = 40014) then
        let g2 := GetToken g1.state g1.fs w.now w.refresh2 w.ioErr2
        match g2.result with
        | Except.error _ =>
            { state := g2.state, fs := g2.fs, result := s1.1, err := s1.2
              refreshNetCalls := g1.refreshNetCalls + g2.refreshNetCalls
              sendCalls := 1 }
        | Except.ok _ =>
            let s2 := sendMessage w.send2
            { state := g2.state, fs := g2.fs, result := s2.1, err := s1.2
              refreshNetCalls := g1.refreshNetCalls + g2.refreshNetCalls
              sendCalls := 2 }
      else
        { state := g1.state, fs := g1.fs, result := s1.1, err := s1.2
          refreshNetCalls := g1.refreshNetCalls, sendCalls := 1 }

/-- `setOptions` (notify.go:278).  Go map insertion of distinct constant
keys is modelled as list append. -/
def setOptions (msgBody : Envelope) (options : Option MessageOptions) :
    Envelope :=
  match options with
  | none => msgBody
  | some o =>
      ((msgBody
        ++ (if o.safe then [("safe", Val.num 1)] else [])
        ++ (if o.enableIDTrans then [("enable_id_trans", Val.num 1)] else []))
        ++ (if o.enableDuplicateCheck then
              ([("enable_duplicate_check", Val.num 1)]
                ++ (if o.duplicateCheckInterval ≠ 0 then
                      [("duplicate_check_interval",
                        Val.num o.duplicateCheckInterval)]
                    else []))
            else []))

/-- Output of `Send`: final state and file system, the returned pair,
the envelope handed to `sendInternal` (none when validation failed
before the network layer), and call counters. -/
structure SendFullOut where
  state : Notify
  fs : FS
  result : MessageResult
  err : Option String
  envelope : Option Envelope
  refreshNetCalls : Nat
  sendCalls : Nat

/-- `Send` (notify.go:249): nil-message check, receiver check, base
fields and options, the `MessageKey` type assertion, and on success the
completed envelope is dispatched through `sendInternal`. -/
def Send (n : Notify) (fs : FS) (receiver : MessageReceiver)
    (message : Option Message) (options : Option MessageOptions)
    (w : SendWorld) : SendFullOut :=
  match message with
  | none =>
      { state := n, fs := fs, result := zeroMessageResult
        err := some "message can not be nil", envelope := none
        refreshNetCalls := 0, sendCalls := 0 }
  | some m =>
      if receiver.toUser = "" ∧ receiver.toParty = "" ∧ receiver.toTag = "" then
        { state := n, fs := fs, result := zeroMessageResult
          err := some "message receiver not set, set at least one"
          envelope := none, refreshNetCalls := 0, sendCalls := 0 }
      else
        let body0 : Envelope :=
          [("touser", Val.str receiver.toUser),
           ("toparty", Val.str receiver.toParty),
           ("totag", Val.str receiver.toTag),
           ("agentid", Val.num n.agentID)]
        let body1 := setOptions body0 options
        match messageKey m with
        | none =>
            { state := n, fs := fs, result := zeroMessageResult
              err := some "unrecognized message type", envelope := none
              refreshNetCalls := 0, sendCalls := 0 }
        | some k =>
            let body := body1 ++ [("msgtype", Val.str k), (k, Val.payload m)]
            let out := sendInternal n fs w
            { state := out.state, fs := out.fs, result := out.result
              err := out.err, envelope := some body
              refreshNetCalls := out.refreshNetCalls
              sendCalls := out.sendCalls }



/-! ## Concrete inputs used by the closed theorems and witnesses -/

/-- An empty file system. -/
def emptyFS : FS := fun _ => none

/-- Client state for the C1 scenario: in-memory token still locally
unexpired at `now = 50`. -/
def c1State : Notify :=
  { corpID := "c", agentID := 1, appSecret := "s", tokenPersist := false
    token := "tokenA", tokenExpiresAt := 100, cacheFilePath := ".notify" }

/-- A decoded send response with the token-expired code 42001. -/
def c1Result42001 : MessageResult :=
  { errcode := 42001, errmsg := "access_token expired", invaliduser := ""
    invalidparty := "", invalidtag := "" }

/-- World for the C1 scenario: the first send decodes to code 42001 and
the second send fails at the transport level. -/
def c1World : SendWorld :=
  { now := 50, refresh1 := RefreshOutcome.netErr "unused", ioErr1 := none
    send1 := SendOutcome.ok c1Result42001
    refresh2 := RefreshOutcome.netErr "unused", ioErr2 := none
    send2 := SendOutcome.netErr "connection refused" }

/-- Client state for the C2 scenario: persistence enabled, valid token. -/
def c2State : Notify :=
  { corpID := "c", agentID := 1, appSecret := "s", tokenPersist := true
    token := "tokenB", tokenExpiresAt := 100, cacheFilePath := ".notify" }

/-- File system after a successful cache save from `c2State`. -/
def c2SavedFS : FS := (saveTokenCache c2State emptyFS none).1

/-- Cache record on disk in the C3 scenario, expiring at 100. -/
def c3Cache : CacheRecord :=
  { tokenPersist := true, token := "cachedToken", tokenExpiresAt := 100
    cacheFilePath := ".notify" }

/-- Freshly constructed client with persistence enabled, for loading. -/
def c3State : Notify :=
  { corpID := "c", agentID := 1, appSecret := "s", tokenPersist := true
    token := "", tokenExpiresAt := 0, cacheFilePath := ".notify" }

/-- File system holding the C3 cache record at the default path. -/
def c3FS : FS :=
  fun p => if p = ".notify" then some (FileData.record c3Cache) else none

/-- Client state with a locally valid token, for the C4 witness. -/
def c4State : Notify :=
  { corpID := "c", agentID := 1, appSecret := "s", tokenPersist := false
    token := "tokenC", tokenExpiresAt := 100, cacheFilePath := ".notify" }

/-- Client state with no token, forcing a refresh. -/
def c5State : Notify :=
  { corpID := "c", agentID := 1, appSecret := "s", tokenPersist := false
    token := "", tokenExpiresAt := 0, cacheFilePath := ".notify" }

/-- Client state with persistence enabled and no token. -/
def c7State : Notify :=
  { corpID := "c", agentID := 1, appSecret := "s", tokenPersist := true
    token := "", tokenExpiresAt := 0, cacheFilePath := ".notify" }

/-- A successful credential-exchange response. -/
def c7Result : GetTokenResult :=
  { errcode := 0, errmsg := "ok", token := "freshToken", expiresIn := 7200 }

/-- A receiver with a non-empty user list. -/
def someReceiver : MessageReceiver :=
  { toUser := "user1", toParty := "", toTag := "" }

/-- A world whose transport outcomes are never reached by the
validation-failure theorems. -/
def idleWorld : SendWorld :=
  { now := 0, refresh1 := RefreshOutcome.netErr "unused", ioErr1 := none
    send1 := SendOutcome.netErr "unused"
    refresh2 := RefreshOutcome.netErr "unused", ioErr2 := none
    send2 := SendOutcome.netErr "unused" }

/-- Options with duplicate check disabled but a non-zero interval set. -/
def c9Options : MessageOptions :=
  { safe := false, enableIDTrans := false, enableDuplicateCheck := false
    duplicateCheckInterval := 900 }

/-- The envelope `Send` builds from `someReceiver`, `c9Options` and a
text message, in the C9 witness. -/
def c9Env : Envelope :=
  [("touser", Val.str "user1"), ("toparty", Val.str ""),
   ("totag", Val.str ""), ("agentid", Val.num 1),
   ("msgtype", Val.str "text"),
   ("text", Val.payload (Message.text { content := "hi" }))]

/-- The fs-free and persistence-free part of `GetToken`: final state,
returned result, and refresh-request count.  Used to show that those
components do not depend on the file system or on persistence
outcomes. -/
def getTokenPure (n : Notify) (now : Int) (net : RefreshOutcome) :
    Notify × Except String (String × Int) × Nat :=
  if n.token ≠ "" ∧ now < n.tokenExpiresAt then
    (n, Except.ok (n.token, n.tokenExpiresAt), 0)
  else
    match net with
    | RefreshOutcome.netErr m =>
        (n, Except.error ("token get request error: " ++ m), 1)
    | RefreshOutcome.decodeErr m =>
        (n, Except.error ("token result decode error: " ++ m), 1)
    | RefreshOutcome.ok r =>
        if r.errcode ≠ 0 then
          (n, Except.error ("token get error: " ++ r.errmsg), 1)
        else
          ({ n with token := r.token, tokenExpiresAt := now + r.expiresIn },
           Except.ok (r.token, now + r.expiresIn), 1)

/-! ## Helper lemmas -/

/-- The canonical cache path differs from the temp path. -/
lemma cachePath_ne_tmp (n : Notify) :
    ¬ (n.cacheFilePath = n.cacheFilePath ++ ".tmp") := by
  intro h
  have hlen := congrArg String.length h
  rw [String.length_append, show (".tmp").length = 4 from rfl] at hlen
  omega

/-- Executing any strict prefix of the save operations leaves the
canonical cache path untouched. -/
lemma saveOps_take_preserves_cachePath (n : Notify) (fs : FS) (k : Nat)
    (hk : k < (saveOps n).length) :
    applyOps fs ((saveOps n).take k) n.cacheFilePath = fs n.cacheFilePath := by
  have hne := cachePath_ne_tmp n
  simp only [saveOps, List.length_cons, List.length_nil] at hk
  interval_cases k <;> simp [saveOps, applyOps, applyOp, hne]

/-- The complete save operation sequence installs the full serialized
record at the canonical cache path. -/
lemma saveOps_complete_installs_record (n : Notify) (fs : FS) :
    applyOps fs (saveOps n) n.cacheFilePath =
      some (FileData.record (cacheRecordOf n)) := by
  have hne := cachePath_ne_tmp n
  simp [saveOps, applyOps, applyOp, hne]

/-- Any failing run of `saveTokenCache` leaves the canonical path
untouched, and a successful run installs the full record. -/
lemma saveTokenCache_run_cachePath (n : Notify) (fs : FS)
    (io : Option SaveFail) :
    (∀ e, (saveTokenCache n fs io).2 = Except.error e →
        (saveTokenCache n fs io).1 n.cacheFilePath = fs n.cacheFilePath)
  ∧ ((saveTokenCache n fs io).2 = Except.ok () →
        (saveTokenCache n fs io).1 n.cacheFilePath =
          some (FileData.record (cacheRecordOf n))) := by
  have hne := cachePath_ne_tmp n
  by_cases hp : n.tokenPersist = false
  · simp [saveTokenCache, hp]
  · rcases io with _ | f
    · constructor
      · intro e he
        simp [saveTokenCache, hp] at he
      · intro hk
        simp [saveTokenCache, hp, saveOps, applyOps, applyOp, hne]
    · cases f <;>
        simp [saveTokenCache, hp, removeFile, saveOps, applyOps, applyOp, hne]

/-- The state component of `GetToken` depends on neither the file system
nor the persistence outcome. -/
lemma GetToken_state_eq (n : Notify) (fs : FS) (now : Int)
    (net : RefreshOutcome) (io : Option SaveFail) :
    (GetToken n fs now net io).state = (getTokenPure n now net).1 := by
  by_cases hc : (n.token ≠ "" ∧ now < n.tokenExpiresAt)
  · simp [GetToken, getTokenPure, hc]
  · cases net with
    | netErr m => simp [GetToken, getTokenPure, hc]
    | decodeErr m => simp [GetToken, getTokenPure, hc]
    | ok r =>
        by_cases he : r.errcode = 0 <;> simp [GetToken, getTokenPure, hc, he]

/-- The result component of `GetToken` depends on neither the file
system nor the persistence outcome. -/
lemma GetToken_result_eq (n : Notify) (fs : FS) (now : Int)
    (net : RefreshOutcome) (io : Option SaveFail) :
    (GetToken n fs now net io).result = (getTokenPure n now net).2.1 := by
  by_cases hc : (n.token ≠ "" ∧ now < n.tokenExpiresAt)
  · simp [GetToken, getTokenPure, hc]
  · cases net with
    | netErr m => simp [GetToken, getTokenPure, hc]
    | decodeErr m => simp [GetToken, getTokenPure, hc]
    | ok r =>
        by_cases he : r.errcode = 0 <;> simp [GetToken, getTokenPure, hc, he]

/-- The request-count component of `GetToken` depends on neither the
file system nor the persistence outcome. -/
lemma GetToken_calls_eq (n : Notify) (fs : FS) (now : Int)
    (net : RefreshOutcome) (io : Option SaveFail) :
    (GetToken n fs now net io).refreshNetCalls =
      (getTokenPure n now net).2.2 := by
  by_cases hc : (n.token ≠ "" ∧ now < n.tokenExpiresAt)
  · simp [GetToken, getTokenPure, hc]
  · cases net with
    | netErr m => simp [GetToken, getTokenPure, hc]
    | decodeErr m => simp [GetToken, getTokenPure, hc]
    | ok r =>
        by_cases he : r.errcode = 0 <;> simp [GetToken, getTokenPure, hc, he]

/-- A message key is never the duplicate-check interval field name. -/
lemma messageKey_ne_interval (m : Message) (k : String)
    (hk : messageKey m = some k) : k ≠ "duplicate_check_interval" := by
  cases m <;> simp [messageKey] at hk <;> simp [hk.symm]

/-- `setOptions` contributes the interval key exactly when the options
are present with the duplicate check enabled and a non-zero interval. -/
lemma hasKey_setOptions_interval (body : Envelope)
    (options : Option MessageOptions) :
    hasKey (setOptions body options) "duplicate_check_interval" ↔
      hasKey body "duplicate_check_interval" ∨
        ∃ o, options = some o ∧ o.enableDuplicateCheck = true ∧
          o.duplicateCheckInterval ≠ 0 := by
  cases options with
  | none => simp [hasKey, setOptions]
  | some o =>
      cases hsafe : o.safe <;> cases hid : o.enableIDTrans <;>
        cases hdup : o.enableDuplicateCheck <;>
          by_cases hint : o.duplicateCheckInterval = 0 <;>
            simp [hasKey, setOptions, hsafe, hid, hdup, hint]

/-! ## Claim theorems -/

/-- C1: counterexample to the stated retry policy, at a concrete input.
With the in-memory token still locally unexpired, the first send decodes
to the token-expired code 42001 and the second send fails at the
transport level; `sendInternal` then issues NO credential-exchange
request (so no refresh is forced: the second `GetToken` call returns the
same locally valid cached token), does resend once, but returns a `nil`
error together with the zero-value result — the second attempt's
transport error is swallowed, because the Go retry branch redeclares
`err` with `:=` (notify.go:488), shadowing the returned variable. -/
theorem c1_retry_swallows_error_and_skips_refresh :
    c1World.send1 = SendOutcome.ok c1Result42001
  ∧ c1Result42001.errcode = 42001
  ∧ c1World.send2 = SendOutcome.netErr "connection refused"
  ∧ c1State.token ≠ "" ∧ c1World.now < c1State.tokenExpiresAt
  ∧ (sendInternal c1State emptyFS c1World).refreshNetCalls = 0
  ∧ (sendInternal c1State emptyFS c1World).sendCalls = 2
  ∧ (sendInternal c1State emptyFS c1World).err = none
  ∧ (sendInternal c1State emptyFS c1World).result = zeroMessageResult :=
  ⟨rfl, rfl, rfl, by decide, by decide, rfl, rfl, rfl, rfl⟩

/-- C2: counterexample to the save/load round trip, at a concrete input.
A persistence-enabled manager saves a token expiring at 100; the save
succeeds and the complete record is on disk; yet a freshly constructed
manager (`New`) at time 50 comes up with an empty token and zero expiry,
because `New` sets `TokenPersist` to `false` before calling
`loadTokenCache` (notify.go:240-244) and `EnableTokenPersist` can only
run after `New` returns, so the construction-time load always fails with
"token persist not enabled". -/
theorem c2_saved_cache_not_adopted_by_fresh_new :
    (saveTokenCache c2State emptyFS none).2 = Except.ok ()
  ∧ c2SavedFS ".notify" = some (FileData.record (cacheRecordOf c2State))
  ∧ (50 : Int) < c2State.tokenExpiresAt
  ∧ (New "c" 1 "s" c2SavedFS 50).token = ""
  ∧ (New "c" 1 "s" c2SavedFS 50).tokenExpiresAt = 0
  ∧ (loadTokenCache (New "c" 1 "s" c2SavedFS 50) c2SavedFS 50).2 =
      Except.error "token persist not enabled" :=
  ⟨rfl, rfl, by decide, rfl, rfl, rfl⟩

/-- C3 counterexample: with the clock exactly at the cached expiry
(now = expiry = 100), the cached expiry is NOT strictly in the future,
yet `loadTokenCache` succeeds and adopts the cached token and expiry —
the code rejects only when `now > expiry` (notify.go:390). -/
theorem c3_load_adopts_at_expiry_boundary :
    ¬ ((100 : Int) < c3Cache.tokenExpiresAt)
  ∧ (loadTokenCache c3State c3FS 100).2 = Except.ok ()
  ∧ (loadTokenCache c3State c3FS 100).1.token = "cachedToken"
  ∧ (loadTokenCache c3State c3FS 100).1.tokenExpiresAt = 100 :=
  ⟨by decide, rfl, rfl, rfl⟩

/-- C3 (amended): for a present and parseable cache file, a load with
persistence enabled adopts the cached token and expiry if and only if
the cached expiry is not strictly in the past (`now ≤ expiry`, rather
than the claimed strict `now < expiry`); otherwise it fails with a
non-fatal error and adopts nothing. -/
theorem c3_load_adopts_iff_expiry_not_past (n : Notify) (fs : FS)
    (now : Int) (c : CacheRecord) (hp : n.tokenPersist = true)
    (hf : fs n.cacheFilePath = some (FileData.record c)) :
    (now ≤ c.tokenExpiresAt →
        loadTokenCache n fs now =
          ({ n with token := c.token, tokenExpiresAt := c.tokenExpiresAt },
           Except.ok ()))
  ∧ (c.tokenExpiresAt < now →
        loadTokenCache n fs now = (n, Except.error "token expired")) := by
  constructor
  · intro h
    simp [loadTokenCache, hp, hf]
    omega
  · intro h
    simp [loadTokenCache, hp, hf, h]

/-- Witness for C3: the amended theorem applied at `now = 50` against a
record expiring at 100 adopts the cached token. -/
theorem c3_load_adopts_witness :
    loadTokenCache c3State c3FS 50 =
      ({ c3State with token := "cachedToken", tokenExpiresAt := 100 },
       Except.ok ()) :=
  (c3_load_adopts_iff_expiry_not_past c3State c3FS 50 c3Cache rfl rfl).1
    (by decide)

/-- C4: when the in-memory token is non-empty and the clock is strictly
before the stored expiry, `GetToken` returns that token and expiry,
issues no credential-exchange request, and changes neither the client
state nor the file system. -/
theorem c4_getToken_cached_no_network (n : Notify) (fs : FS) (now : Int)
    (net : RefreshOutcome) (io : Option SaveFail)
    (h1 : n.token ≠ "") (h2 : now < n.tokenExpiresAt) :
    GetToken n fs now net io =
      { state := n, fs := fs
        result := Except.ok (n.token, n.tokenExpiresAt)
        refreshNetCalls := 0 } := by
  simp [GetToken, h1, h2]

/-- Witness for C4 at a concrete cached-valid state. -/
theorem c4_getToken_cached_witness :
    GetToken c4State emptyFS 50 (RefreshOutcome.netErr "unreachable") none =
      { state := c4State, fs := emptyFS
        result := Except.ok ("tokenC", 100), refreshNetCalls := 0 } :=
  c4_getToken_cached_no_network c4State emptyFS 50
    (RefreshOutcome.netErr "unreachable") none (by decide) (by decide)

/-- C5: on every refresh actually performed by `GetToken` (cache miss),
a transport or decode failure of the credential-exchange call propagates
as an error; a decoded response with non-zero remote error code yields
an error carrying the remote message; and on success `GetToken` stores
the returned token with expiry `now + expiresIn` in memory and returns
that pair. -/
theorem c5_getToken_refresh_semantics (n : Notify) (fs : FS) (now : Int)
    (io : Option SaveFail)
    (h : ¬(n.token ≠ "" ∧ now < n.tokenExpiresAt)) :
    (∀ m, (GetToken n fs now (RefreshOutcome.netErr m) io).result =
        Except.error ("token get request error: " ++ m))
  ∧ (∀ m, (GetToken n fs now (RefreshOutcome.decodeErr m) io).result =
        Except.error ("token result decode error: " ++ m))
  ∧ (∀ r, r.errcode ≠ 0 →
        (GetToken n fs now (RefreshOutcome.ok r) io).result =
          Except.error ("token get error: " ++ r.errmsg))
  ∧ (∀ r, r.errcode = 0 →
        (GetToken n fs now (RefreshOutcome.ok r) io).result =
          Except.ok (r.token, now + r.expiresIn)
      ∧ (GetToken n fs now (RefreshOutcome.ok r) io).state =
          { n with token := r.token, tokenExpiresAt := now + r.expiresIn }) := by
  refine ⟨fun m => by simp [GetToken, h], fun m => by simp [GetToken, h],
    fun r hr => by simp [GetToken, h, hr],
    fun r hr => by simp [GetToken, h, hr]⟩

/-- Witness for C5: a transport failure of the refresh propagates. -/
theorem c5_getToken_refresh_witness :
    (GetToken c5State emptyFS 0
        (RefreshOutcome.netErr "dial tcp refused") none).result =
      Except.error ("token get request error: " ++ "dial tcp refused") :=
  (c5_getToken_refresh_semantics c5State emptyFS 0 none (by decide)).1
    "dial tcp refused"

/-- C6: atomic visibility of the cache save.  Interrupting the save
after any strict prefix of its operations (all of which precede the
final rename) leaves the canonical cache path with its previous content;
the complete run installs the complete newly serialized record; every
error return of `saveTokenCache` leaves the canonical path with its
previous content; and every successful return installs the complete new
record — a partially written cache file is never visible under the
canonical path. -/
theorem c6_save_atomic_visibility (n : Notify) (fs : FS) (k : Nat)
    (io : Option SaveFail) :
    (k < (saveOps n).length →
        applyOps fs ((saveOps n).take k) n.cacheFilePath =
          fs n.cacheFilePath)
  ∧ applyOps fs (saveOps n) n.cacheFilePath =
      some (FileData.record (cacheRecordOf n))
  ∧ (∀ e, (saveTokenCache n fs io).2 = Except.error e →
        (saveTokenCache n fs io).1 n.cacheFilePath = fs n.cacheFilePath)
  ∧ ((saveTokenCache n fs io).2 = Except.ok () →
        (saveTokenCache n fs io).1 n.cacheFilePath =
          some (FileData.record (cacheRecordOf n))) :=
  ⟨fun hk => saveOps_take_preserves_cachePath n fs k hk,
   saveOps_complete_installs_record n fs,
   (saveTokenCache_run_cachePath n fs io).1,
   (saveTokenCache_run_cachePath n fs io).2⟩

/-- Witness for C6: interrupting after two operations (temp file created
and written) leaves the canonical path absent, as before. -/
theorem c6_save_atomic_witness :
    applyOps emptyFS ((saveOps c2State).take 2) c2State.cacheFilePath =
      emptyFS c2State.cacheFilePath :=
  (c6_save_atomic_visibility c2State emptyFS 2 none).1 (by decide)

/-- C7: a persistence failure never propagates out of `GetToken`: for
every persistence outcome the successful refresh still returns the fresh
token and expiry and produces the same client state; and the observable
outcome of `sendInternal` (state, result, error, call counts) is
entirely independent of the persistence outcomes, so a persistence error
never aborts a send or a refresh. -/
theorem c7_persist_failure_never_propagates (n : Notify) (fs : FS)
    (now : Int) (r : GetTokenResult)
    (h : ¬(n.token ≠ "" ∧ now < n.tokenExpiresAt)) (hr : r.errcode = 0) :
    (∀ io : Option SaveFail,
        (GetToken n fs now (RefreshOutcome.ok r) io).result =
          Except.ok (r.token, now + r.expiresIn)
      ∧ (GetToken n fs now (RefreshOutcome.ok r) io).state =
          (GetToken n fs now (RefreshOutcome.ok r) none).state)
  ∧ (∀ (w : SendWorld) (i1 i2 : Option SaveFail),
        (sendInternal n fs { w with ioErr1 := i1, ioErr2 := i2 }).obs =
          (sendInternal n fs w).obs) := by
  constructor
  · intro io
    constructor
    · simp [GetToken, h, hr]
    · rw [GetToken_state_eq, GetToken_state_eq]
  · intro w i1 i2
    simp only [sendInternal, GetToken_state_eq, GetToken_result_eq,
      GetToken_calls_eq]
    rcases h1 : (getTokenPure n w.now w.refresh1).2.1 with e | t <;>
      simp only [h1]
    · rfl
    · by_cases hretry : ((sendMessage w.send1).2 = none ∧
        ((sendMessage w.send1).1.errcode = 42001 ∨
          (sendMessage w.send1).1.errcode = 40014))
      · simp only [if_pos hretry]
        rcases h2 : (getTokenPure (getTokenPure n w.now w.refresh1).1 w.now
            w.refresh2).2.1 with e2 | t2 <;> simp only [h2] <;> rfl
      · simp only [if_neg hretry]
        rfl

/-- Witness for C7: with a rename failure during persistence, the
refresh still returns the fresh token. -/
theorem c7_persist_failure_witness :
    (GetToken c7State emptyFS 1000 (RefreshOutcome.ok c7Result)
        (some SaveFail.renameErr)).result =
      Except.ok ("freshToken", 1000 + 7200) :=
  ((c7_persist_failure_never_propagates c7State emptyFS 1000 c7Result
      (by decide) (by decide)).1 (some SaveFail.renameErr)).1

/-- C8: for every non-null message value outside the closed variant set
(and a receiver that passes the earlier receiver validation), `Send`
fails with the unrecognized-type error, hands no envelope to the
transport layer, issues no credential-exchange request and no send
request, and leaves state and file system unchanged. -/
theorem c8_send_unrecognized_type_fails_fast (n : Notify) (fs : FS)
    (receiver : MessageReceiver) (m : Message)
    (options : Option MessageOptions) (w : SendWorld)
    (hm : messageKey m = none)
    (hrecv : ¬(receiver.toUser = "" ∧ receiver.toParty = "" ∧
      receiver.toTag = "")) :
    Send n fs receiver (some m) options w =
      { state := n, fs := fs, result := zeroMessageResult
        err := some "unrecognized message type", envelope := none
        refreshNetCalls := 0, sendCalls := 0 } := by
  simp [Send, hm, hrecv]

/-- Witness for C8 at a concrete unrecognized message value. -/
theorem c8_send_unrecognized_witness :
    Send c5State emptyFS someReceiver (some (Message.unrecognized "int"))
        none idleWorld =
      { state := c5State, fs := emptyFS, result := zeroMessageResult
        err := some "unrecognized message type", envelope := none
        refreshNetCalls := 0, sendCalls := 0 } :=
  c8_send_unrecognized_type_fails_fast c5State emptyFS someReceiver
    (Message.unrecognized "int") none idleWorld rfl (by decide)

/-- C9: the envelope built by `Send` contains the
duplicate-check-interval field only when the options are present with
the duplicate check enabled; in particular, options with the check
disabled never contribute the field, whatever interval they carry. -/
theorem c9_interval_only_when_enabled (n : Notify) (fs : FS)
    (receiver : MessageReceiver) (m : Message)
    (options : Option MessageOptions) (w : SendWorld) :
    (∀ env, (Send n fs receiver (some m) options w).envelope = some env →
        hasKey env "duplicate_check_interval" →
        ∃ o, options = some o ∧ o.enableDuplicateCheck = true)
  ∧ (∀ (o : MessageOptions) env, o.enableDuplicateCheck = false →
        (Send n fs receiver (some m) (some o) w).envelope = some env →
        ¬ hasKey env "duplicate_check_interval") := by
  constructor
  · intro env henv hkey
    by_cases hrecv : (receiver.toUser = "" ∧ receiver.toParty = "" ∧
      receiver.toTag = "")
    · simp [Send, hrecv] at henv
    · rcases hk : messageKey m with _ | k
      · simp [Send, hrecv, hk] at henv
      · simp [Send, hrecv, hk] at henv
        rw [henv.symm] at hkey
        have hkne := messageKey_ne_interval m k hk
        simp [hasKey, List.map_append, List.mem_append] at hkey
        rcases hkey with h1 | h3
        · have := (hasKey_setOptions_interval _ options).1 (by
            simpa [hasKey] using h1)
          rcases this with hbase | ⟨o, ho, hdup, hi⟩
          · simp [hasKey] at hbase
          · exact ⟨o, ho, hdup⟩
        · exact absurd h3.symm hkne
  · intro o env ho henv hkey
    by_cases hrecv : (receiver.toUser = "" ∧ receiver.toParty = "" ∧
      receiver.toTag = "")
    · simp [Send, hrecv] at henv
    · rcases hk : messageKey m with _ | k
      · simp [Send, hrecv, hk] at henv
      · simp [Send, hrecv, hk] at henv
        rw [henv.symm] at hkey
        have hkne := messageKey_ne_interval m k hk
        simp [hasKey, List.map_append, List.mem_append] at hkey
        rcases hkey with h1 | h3
        · have := (hasKey_setOptions_interval _ (some o)).1 (by
            simpa [hasKey] using h1)
          rcases this with hbase | ⟨o2, ho2, hdup, hi⟩
          · simp [hasKey] at hbase
          · rw [Option.some.injEq] at ho2
            rw [ho2.symm] at hdup
            exact absurd hdup (by simp [ho])
        · exact absurd h3.symm hkne

/-- Witness for C9: `EnableDuplicateCheck = false` with interval 900
yields an envelope without the interval field. -/
theorem c9_interval_witness :
    ¬ hasKey c9Env "duplicate_check_interval" :=
  (c9_interval_only_when_enabled c5State emptyFS someReceiver
      (Message.text { content := "hi" }) (some c9Options) idleWorld).2
    c9Options c9Env rfl rfl

/-- C10: every failing `GetToken` execution (network error, decode
error, or non-zero remote error code) leaves the in-memory client state
— in particular its token and expiry — unchanged. -/
theorem c10_failed_refresh_leaves_state (n : Notify) (fs : FS) (now : Int)
    (net : RefreshOutcome) (io : Option SaveFail) (e : String)
    (h : (GetToken n fs now net io).result = Except.error e) :
    (GetToken n fs now net io).state = n := by
  by_cases hc : (n.token ≠ "" ∧ now < n.tokenExpiresAt)
  · simp [GetToken, hc] at h
  · cases net with
    | netErr m => simp [GetToken, hc]
    | decodeErr m => simp [GetToken, hc]
    | ok r =>
        by_cases he : r.errcode = 0
        · simp [GetToken, hc, he] at h
        · simp [GetToken, hc, he]

/-- Witness for C10: a decode failure leaves the state unchanged. -/
theorem c10_failed_refresh_witness :
    (GetToken c5State emptyFS 0
        (RefreshOutcome.decodeErr "invalid json") none).state = c5State :=
  c10_failed_refresh_leaves_state c5State emptyFS 0
    (RefreshOutcome.decodeErr "invalid json") none
    ("token result decode error: " ++ "invalid json") rfl

end notify
